import Mathlib

/-!
Verification development for the MFA subsystem of the gotrue identity
service (`api/mfa.go`).  The Go handlers are shallowly embedded as pure
Lean functions over an explicit database state; collaborator operations
from the `models` and `storage` packages (whose sources are not part of
the verified unit) are modelled from the specification and marked as
such.  External engines (the TOTP validator and the WebAuthn ceremony
engine from third-party libraries) are abstracted as oracle fields of an
environment record, so theorems quantify over every possible behaviour
of those engines.
-/

namespace Gotrue

/-- Factor status enumeration (models.FactorStateUnverified / models.FactorStateVerified). -/
inductive FactorState where
  | unverified
  | verified
deriving DecidableEq, Repr

/-- Authenticator assurance levels (models.AAL1 / models.AAL2). -/
inductive AAL where
  | aal1
  | aal2
deriving DecidableEq, Repr

/-- One enrolled or pending authentication factor (models.Factor). -/
structure Factor where
  id : Nat
  userID : Nat
  friendlyName : String
  factorType : String
  status : FactorState
  secret : String
deriving DecidableEq, Repr

/-- One time-bound attempt to prove possession of a factor (models.Challenge). -/
structure Challenge where
  id : Nat
  factorID : Nat
  ipAddress : String
  createdAt : Nat
  verifiedAt : Option Nat
deriving DecidableEq, Repr

/-- Relying-party configuration handed to the WebAuthn engine (webauthn.Config). -/
structure RPConfig where
  rpDisplayName : String
  rpID : String
  rpOrigin : String
  rpIcon : String
deriving DecidableEq, Repr

/-- Transient WebAuthn ceremony data (webauthn.SessionData). -/
structure WebauthnSessionData where
  challengeData : String
deriving DecidableEq, Repr

/-- The zero value `&webauthn.SessionData{}` allocated at the top of VerifyWebAuthnFactor. -/
def emptyWebauthnSessionData : WebauthnSessionData := ⟨""⟩

/-- The caller's login session (models.Session plus its webauthn fields). -/
structure Session where
  id : Nat
  userID : Nat
  aal : AAL
  webauthnConfiguration : Option RPConfig
  webauthnRegistrationSession : Option WebauthnSessionData
  webauthnLoginSession : Option WebauthnSessionData
deriving DecidableEq, Repr

/-- The authenticated user (models.User, only the fields this unit reads). -/
structure User where
  id : Nat
  email : String
  isSSOUser : Bool
deriving DecidableEq, Repr

/-- Audit-log action constants of the models package. -/
inductive AuditAction where
  | enrollFactorAction
  | createChallengeAction
  | verifyFactorAction
  | unenrollFactorAction
deriving DecidableEq, Repr

/-- One audit-log row (models.NewAuditLogEntry payload). -/
structure AuditLogEntry where
  action : AuditAction
  actorID : Nat
  ipAddress : String
  factorID : Option Nat
  factorStatus : Option FactorState
  challengeID : Option Nat
  sessionID : Option Nat
deriving DecidableEq, Repr

/-- The durable state owned by the collaborating stores. -/
structure DBState where
  users : List User
  factors : List Factor
  challenges : List Challenge
  sessions : List Session
  auditLog : List AuditLogEntry
deriving DecidableEq, Repr

/-- MFA-related configuration (conf.MFAConfiguration). -/
structure MFAConfig where
  maxEnrolledFactors : Nat
  maxVerifiedFactors : Nat
  challengeExpiryDuration : Nat
deriving DecidableEq, Repr

/-- Service configuration (the fields this unit reads). -/
structure Config where
  siteURL : String
  mfa : MFAConfig
deriving DecidableEq, Repr

/-- Error taxonomy of the api package error helpers. -/
inductive ApiError where
  | internalServer (msg : String)
  | badRequest (msg : String)
  | forbidden (msg : String)
  | notFound (msg : String)
  | unprocessableEntity (msg : String)
  | raw (msg : String)
deriving DecidableEq, Repr

def internalServerError (msg : String) : ApiError := .internalServer msg

def badRequestError (msg : String) : ApiError := .badRequest msg

def forbiddenError (msg : String) : ApiError := .forbidden msg

def notFoundError (msg : String) : ApiError := .notFound msg

def unprocessableEntityError (msg : String) : ApiError := .unprocessableEntity msg

/-- An error from a collaborator returned to the client without wrapping. -/
def rawError (msg : String) : ApiError := .raw msg

/-- Token minted by updateMFASessionAndClaims (AccessTokenResponse). -/
structure AccessTokenResponse where
  userID : Nat
  factorID : Nat
deriving DecidableEq, Repr

/-- TOTP enrollment payload returned once to the caller. -/
structure TOTPObject where
  qrCode : String
  secret : String
  uri : String
deriving DecidableEq, Repr

/-- The JSON bodies the handlers can send on success. -/
inductive ApiResponse where
  | enrollTOTP (id : Nat) (t : TOTPObject)
  | factorJSON (f : Factor)
  | challengeResp (id : Nat) (expiresAt : Nat)
  | ceremonyOptions (o : String)
  | token (t : AccessTokenResponse)
  | emptyString
  | unenrolled (id : Nat)
deriving DecidableEq, Repr

/-- Request body of EnrollFactor. -/
structure EnrollFactorParams where
  friendlyName : String
  factorType : String
  issuer : String
deriving DecidableEq, Repr

/-- Request body of VerifyFactor. -/
structure VerifyFactorParams where
  challengeID : Nat
  code : String
deriving DecidableEq, Repr

/-- Modelled from the spec: models.FindFactorsByUser reads the user's
current factor set fresh from storage. -/
def FindFactorsByUser (db : DBState) (user : User) : List Factor :=
  db.factors.filter (fun f => decide (f.userID = user.id))

/-- Modelled from the spec: models.FindChallengeByChallengeID looks a
challenge up by id in the challenge store. -/
def FindChallengeByChallengeID (db : DBState) (cid : Nat) : Option Challenge :=
  db.challenges.find? (fun c => decide (c.id = cid))

/-- Modelled from the spec: tx.Destroy(challenge) removes the challenge row. -/
def destroyChallenge (db : DBState) (c : Challenge) : DBState :=
  { db with challenges := db.challenges.filter (fun x => decide (x.id ≠ c.id)) }

/-- Modelled from the spec: challenge.Verify(tx) sets the verification time. -/
def markChallengeVerified (db : DBState) (cid : Nat) (now : Nat) : DBState :=
  { db with challenges :=
      db.challenges.map (fun c => if c.id = cid then { c with verifiedAt := some now } else c) }

/-- Modelled from the spec: factor.UpdateStatus(tx, state). -/
def updateFactorStatus (db : DBState) (fid : Nat) (st : FactorState) : DBState :=
  { db with factors :=
      db.factors.map (fun f => if f.id = fid then { f with status := st } else f) }

/-- Modelled from the spec: models.FindUserByID re-reads the user row fresh. -/
def FindUserByID (db : DBState) (uid : Nat) : Option User :=
  db.users.find? (fun u => decide (u.id = uid))

/-- Modelled from the spec: updateMFASessionAndClaims elevates the calling
session's assurance level to AAL2 and mints a new access token. -/
def elevateSessionToAAL2 (db : DBState) (sid : Nat) : DBState :=
  { db with sessions :=
      db.sessions.map (fun s => if s.id = sid then { s with aal := .aal2 } else s) }

/-- Strict order on assurance levels. -/
def aalLessThan : AAL → AAL → Bool
  | .aal1, .aal2 => true
  | _, _ => false

/-- Modelled from the spec: models.InvalidateSessionsWithAALLessThan removes
every session of the user whose assurance level is below the given one. -/
def InvalidateSessionsWithAALLessThan (db : DBState) (uid : Nat) (level : AAL) : DBState :=
  { db with sessions :=
      db.sessions.filter (fun s => !(decide (s.userID = uid) && aalLessThan s.aal level)) }

/-- Modelled from the spec: models.DeleteUnverifiedFactors deletes every
unverified factor belonging to the user. -/
def DeleteUnverifiedFactors (db : DBState) (uid : Nat) : DBState :=
  { db with factors :=
      db.factors.filter (fun f => !(decide (f.userID = uid) && decide (f.status = FactorState.unverified))) }

/-- Modelled from the spec: models.NewAuditLogEntry appends an audit row. -/
def NewAuditLogEntry (db : DBState) (e : AuditLogEntry) : DBState :=
  { db with auditLog := db.auditLog ++ [e] }

/-- Modelled from the spec: session.UpdateWebauthnConfiguration stores the
relying-party configuration on the session. -/
def UpdateWebauthnConfiguration (db : DBState) (sid : Nat) (rp : RPConfig) : DBState :=
  { db with sessions :=
      db.sessions.map (fun s => if s.id = sid then { s with webauthnConfiguration := some rp } else s) }

/-- Modelled from the spec: session.UpdateWebauthnRegistrationSession persists
in-progress registration ceremony data on the session. -/
def UpdateWebauthnRegistrationSession (db : DBState) (sid : Nat) (sd : WebauthnSessionData) : DBState :=
  { db with sessions :=
      db.sessions.map (fun s => if s.id = sid then { s with webauthnRegistrationSession := some sd } else s) }

/-- Modelled from the spec: session.UpdateWebauthnLoginSession persists
in-progress login (assertion) ceremony data on the session. -/
def UpdateWebauthnLoginSession (db : DBState) (sid : Nat) (sd : WebauthnSessionData) : DBState :=
  { db with sessions :=
      db.sessions.map (fun s => if s.id = sid then { s with webauthnLoginSession := some sd } else s) }

/-- Modelled from the spec: models.NewChallenge builds a challenge row bound
to the factor and requester IP with an absent verification time. -/
def NewChallenge (newID : Nat) (f : Factor) (ip : String) (now : Nat) : Challenge :=
  ⟨newID, f.id, ip, now, none⟩

/-- Modelled from the spec: models.NewFactor builds a factor row. -/
def NewFactor (newID : Nat) (user : User) (friendlyName factorType : String)
    (st : FactorState) (secret : String) : Factor :=
  ⟨newID, user.id, friendlyName, factorType, st, secret⟩

/-- Session.GetAAL. -/
def GetAAL (s : Session) : AAL := s.aal

/-- Modelled from the spec: factor.DowngradeSessionsToAAL1 downgrades the
sessions tied to this factor's removal (per the spec's safety note, all
sessions of the factor's owner) to AAL1. -/
def DowngradeSessionsToAAL1 (db : DBState) (factor : Factor) : DBState :=
  { db with sessions :=
      db.sessions.map (fun s => if s.userID = factor.userID then { s with aal := .aal1 } else s) }

/-- Parsed credential creation response (protocol.ParsedCredentialCreationData). -/
structure WebauthnParsedCreation where
  raw : String
deriving DecidableEq, Repr

/-- Parsed credential request (assertion) response. -/
structure WebauthnParsedRequest where
  raw : String
deriving DecidableEq, Repr

/-- A WebAuthn credential produced by the ceremony engine. -/
structure WebauthnCredential where
  publicKey : String
deriving DecidableEq, Repr

/-- Environment of one VerifyFactor request: the clock, the parsed body, the
external TOTP validator and WebAuthn engine (oracles over all of their
possible behaviours), and failure injection for each fallible collaborator
call inside the transaction. -/
structure VerifyEnv where
  now : Nat
  bodyOk : Bool
  params : Option VerifyFactorParams
  totpValidates : String → String → Bool
  destroyChallengeFails : Bool
  auditFails : Bool
  challengeVerifyFails : Bool
  updateStatusFails : Bool
  updateMFAFails : Bool
  setCookieFails : Bool
  invalidateFails : Bool
  deleteUnverifiedFails : Bool
  decodeConfigOk : Bool
  unmarshalCreationOk : Bool
  parseCreationBody : Except String WebauthnParsedCreation
  parseRequestBody : Except String WebauthnParsedRequest
  createCredential : WebauthnSessionData → WebauthnParsedCreation → Except String WebauthnCredential
  validateLogin : WebauthnSessionData → WebauthnParsedRequest → Except String WebauthnCredential

/-- VerifyWebAuthnFactor (api/mfa.go lines 477-544).  The handler decodes the
relying-party configuration from the session, re-reads the body, and then
branches on which ceremony data the session holds.  It passes the freshly
allocated zero SessionData value to the engine in both branches (the stored
ceremony data is read but its content never reaches the engine), never
stores the resulting credential, ignores the ValidateLogin error in the
login branch, and responds with an empty string on success. -/
def VerifyWebAuthnFactor (env : VerifyEnv) (user : User) (session : Session)
    (db : DBState) : Except ApiError ApiResponse × DBState :=
  let sessionData := emptyWebauthnSessionData
  if !env.decodeConfigOk then (.error (rawError "webauthn configuration decode failure"), db) else
  if !env.bodyOk then (.error (internalServerError "Could not read body"), db) else
  if !env.unmarshalCreationOk then (.error (badRequestError "invalid body: unable to parse JSON"), db) else
  -- lines 506-508: a parse and a CreateCredential call whose errors are discarded
  let _discardedParse := env.parseCreationBody
  let _discardedCreate := env.parseCreationBody.toOption.map (fun p => env.createCredential sessionData p)
  match session.webauthnRegistrationSession with
  | some _ =>
    match env.parseCreationBody with
    | .error e => (.error (rawError e), db)
    | .ok parsed =>
      match env.createCredential sessionData parsed with
      | .error e => (.error (rawError e), db)
      | .ok _credential => (.ok .emptyString, db)
  | none =>
    match session.webauthnLoginSession with
    | some _ =>
      match env.parseRequestBody with
      | .error e => (.error (rawError e), db)
      | .ok parsed =>
        -- the ValidateLogin error is printed, not checked
        let _discardedValidate := env.validateLogin sessionData parsed
        (.ok .emptyString, db)
    | none => (.error (internalServerError "Please initiate a webauthn session"), db)

/-- The success transaction of VerifyFactor (api/mfa.go lines 431-467): audit
entry, challenge consumption, conditional factor promotion, fresh user read,
session elevation with token minting, cookie write, invalidation of weaker
sessions, and sweep of unverified factors.  Any failing step aborts the
whole transaction. -/
def verifyFactorTransaction (env : VerifyEnv) (user : User) (factor : Factor)
    (session : Session) (challenge : Challenge) (remoteAddr : String)
    (db : DBState) : Except ApiError (AccessTokenResponse × DBState) :=
  if env.auditFails then .error (rawError "audit write failure") else
  let db1 := NewAuditLogEntry db
    ⟨.verifyFactorAction, user.id, remoteAddr, some factor.id, none, some challenge.id, none⟩
  if env.challengeVerifyFails then .error (rawError "challenge verify failure") else
  let dbm := markChallengeVerified db1 challenge.id env.now
  -- the remaining steps, shared by the two promotion branches
  let rest : DBState → Except ApiError (AccessTokenResponse × DBState) := fun db3 =>
    match FindUserByID db3 user.id with
    | none => .error (rawError "user lookup failure")
    | some user2 =>
      if env.updateMFAFails then .error (rawError "session claims update failure") else
      let db4 := elevateSessionToAAL2 db3 session.id
      let token : AccessTokenResponse := ⟨user2.id, factor.id⟩
      if env.setCookieFails then .error (internalServerError "Failed to set JWT cookie.") else
      if env.invalidateFails then .error (internalServerError "Failed to update sessions.") else
      let db5 := InvalidateSessionsWithAALLessThan db4 user2.id .aal2
      if env.deleteUnverifiedFails then .error (internalServerError "Error removing unverified factors.") else
      let db6 := DeleteUnverifiedFactors db5 user2.id
      .ok (token, db6)
  if factor.status ≠ FactorState.verified then
    if env.updateStatusFails then .error (rawError "factor status update failure")
    else rest (updateFactorStatus dbm factor.id FactorState.verified)
  else rest dbm

/-- VerifyFactor (api/mfa.go lines 373-475): body decoding, ownership check,
challenge lookup, single-use and IP-binding guard, lazy expiry handling,
dispatch on the factor type, TOTP code validation, and the success
transaction.  Returns the handler result together with the database state
after the call (`db` unchanged whenever every transaction rolled back). -/
def VerifyFactor (config : Config) (env : VerifyEnv) (user : User) (factor : Factor)
    (session : Session) (currentIP : String) (db : DBState) :
    Except ApiError ApiResponse × DBState :=
  if !env.bodyOk then (.error (internalServerError "Could not read body"), db) else
  match env.params with
  | none => (.error (badRequestError "invalid body: unable to parse JSON"), db)
  | some params =>
    if factor.userID ≠ user.id then
      (.error (internalServerError "user needs to own factor to verify"), db)
    else
      match FindChallengeByChallengeID db params.challengeID with
      | none => (.error (notFoundError "challenge not found"), db)
      | some challenge =>
        if challenge.verifiedAt ≠ none ∨ challenge.ipAddress ≠ currentIP then
          (.error (badRequestError "Challenge and verify IP addresses mismatch"), db)
        else
          if challenge.createdAt + config.mfa.challengeExpiryDuration < env.now then
            if env.destroyChallengeFails then
              (.error (internalServerError "Database error deleting challenge"), db)
            else
              (.error (badRequestError "challenge has expired, verify against another challenge or create a new challenge."),
               destroyChallenge db challenge)
          else
            if factor.factorType = "webauthn" then
              VerifyWebAuthnFactor env user session db
            else
              if !(env.totpValidates params.code factor.secret) then
                (.error (badRequestError "Invalid TOTP code entered"), db)
              else
                match verifyFactorTransaction env user factor session challenge currentIP db with
                | .error e => (.error e, db)
                | .ok (token, db2) => (.ok (.token token), db2)

/-- Key material produced by totp.Generate (pquerna/otp, external). -/
structure TotpKey where
  secret : String
  url : String
deriving DecidableEq, Repr

/-- The scannable SVG encoding of the enrollment URI.  QR rendering is a
formatting detail; it is modelled as an opaque deterministic encoding. -/
def qrSVG (key : TotpKey) : String := "svg:" ++ key.url

/-- The relying-party configuration hard-coded in EnrollWebAuthnFactor
(api/mfa.go lines 174-179). -/
def hardcodedRPConfig : RPConfig :=
  ⟨"Go Webauthn", "2175-203-116-4-74.ap.ngrok.io",
   "https://2175-203-116-4-74.ap.ngrok.io", "https://go-webauthn.local/logo.png"⟩

/-- Environment of one enrollment request: parsed body, request addresses,
results of the external TOTP generator, the URL parser and the WebAuthn
constructor, a fresh row id, and failure injection for fallible
collaborator calls. -/
structure EnrollEnv where
  remoteAddr : String
  bodyOk : Bool
  params : Option EnrollFactorParams
  siteURLHost : Option String
  totpGenerate : Option TotpKey
  qrWriteOk : Bool
  webauthnNewOk : Bool
  newFactorID : Nat
  newFactorFails : Bool
  txCreateFails : Bool
  txAuditFails : Bool
  updateWebauthnConfigFails : Bool
deriving Repr

/-- The verified-factor count loop shared by both enrollment paths
(api/mfa.go lines 109-115 and 216-224). -/
def numVerifiedFactors (db : DBState) (user : User) : Nat :=
  ((FindFactorsByUser db user).filter (fun f => decide (f.status = FactorState.verified))).length

/-- EnrollWebAuthnFactor (api/mfa.go lines 168-253): constructs the
hard-coded relying-party configuration, re-reads the body, re-reads the
factor set, enforces the enrolled-factor cap and a hard-coded
verified-factor cap of one, creates the factor row with an empty secret,
stores the relying-party configuration on the session and writes an audit
entry, all in one transaction. -/
def EnrollWebAuthnFactor (config : Config) (env : EnrollEnv) (user : User)
    (session : Session) (db : DBState) : Except ApiError ApiResponse × DBState :=
  if !env.webauthnNewOk then (.error (rawError "webauthn relying party construction failure"), db) else
  let web := hardcodedRPConfig
  if !env.bodyOk then (.error (internalServerError "Could not read body"), db) else
  match env.params with
  | none => (.error (badRequestError "invalid body: unable to parse JSON"), db)
  | some params =>
    let factors := FindFactorsByUser db user
    if factors.length ≥ config.mfa.maxEnrolledFactors then
      (.error (forbiddenError "Enrolled factors exceed allowed limit, unenroll to continue"), db)
    else
      if numVerifiedFactors db user ≥ 1 then
        (.error (forbiddenError "number of enrolled factors exceeds the allowed value, unenroll to continue"), db)
      else
        if env.newFactorFails then (.error (internalServerError "database error creating factor"), db) else
        let factor := NewFactor env.newFactorID user params.friendlyName params.factorType
          FactorState.unverified ""
        if env.txCreateFails then (.error (rawError "factor create failure"), db) else
        if env.updateWebauthnConfigFails then (.error (rawError "webauthn configuration update failure"), db) else
        if env.txAuditFails then (.error (rawError "audit write failure"), db) else
        let db1 := { db with factors := db.factors ++ [factor] }
        let db2 := UpdateWebauthnConfiguration db1 session.id web
        let db3 := NewAuditLogEntry db2
          ⟨.enrollFactorAction, user.id, env.remoteAddr, some factor.id, none, none, none⟩
        (.ok (.factorJSON factor), db3)

/-- EnrollFactor (api/mfa.go lines 62-166): body decoding, SSO gate, dispatch
to the WebAuthn path, factor-type validation, issuer derivation, fresh read
of the factor set, the two configured capacity caps, TOTP key generation
and QR rendering, then factor creation plus audit entry in one
transaction. -/
def EnrollFactor (config : Config) (env : EnrollEnv) (user : User)
    (session : Session) (db : DBState) : Except ApiError ApiResponse × DBState :=
  if !env.bodyOk then (.error (internalServerError "Could not read body"), db) else
  match env.params with
  | none => (.error (badRequestError "invalid body: unable to parse JSON"), db)
  | some params =>
    if user.isSSOUser then
      (.error (unprocessableEntityError "MFA enrollment only supported for non-SSO users at this time"), db)
    else
      if params.factorType = "webauthn" then
        EnrollWebAuthnFactor config env user session db
      else
        if params.factorType ≠ "totp" then
          (.error (badRequestError "factor_type needs to be totp"), db)
        else
          match (if params.issuer = "" then env.siteURLHost else some params.issuer) with
          | none => (.error (internalServerError "site url is improperly formatted"), db)
          | some _issuer =>
            let factors := FindFactorsByUser db user
            if factors.length ≥ config.mfa.maxEnrolledFactors then
              (.error (forbiddenError "Enrolled factors exceed allowed limit, unenroll to continue"), db)
            else
              if numVerifiedFactors db user ≥ config.mfa.maxVerifiedFactors then
                (.error (forbiddenError "Maximum number of enrolled factors reached, unenroll to continue"), db)
              else
                match env.totpGenerate with
                | none => (.error (internalServerError "error generating QR Code secret key"), db)
                | some key =>
                  if !env.qrWriteOk then (.error (internalServerError "error writing to QR Code"), db) else
                  if env.newFactorFails then (.error (internalServerError "database error creating factor"), db) else
                  let factor := NewFactor env.newFactorID user params.friendlyName params.factorType
                    FactorState.unverified key.secret
                  if env.txCreateFails then (.error (rawError "factor create failure"), db) else
                  if env.txAuditFails then (.error (rawError "audit write failure"), db) else
                  let db1 := NewAuditLogEntry { db with factors := db.factors ++ [factor] }
                    ⟨.enrollFactorAction, user.id, env.remoteAddr, some factor.id, none, none, none⟩
                  (.ok (.enrollTOTP factor.id ⟨qrSVG key, key.secret, key.url⟩), db1)

/-- Environment of one challenge request: clock, request addresses, a fresh
row id, the WebAuthn engine's ceremony results (oracles), and failure
injection for the fallible collaborator calls. -/
structure ChallengeEnv where
  now : Nat
  remoteAddr : String
  ipAddress : String
  newChallengeID : Nat
  newChallengeFails : Bool
  decodeConfigOk : Bool
  beginLogin : Option (String × WebauthnSessionData)
  beginRegistration : Option (String × WebauthnSessionData)
  updateLoginSessionFails : Bool
  updateRegistrationSessionFails : Bool
  txCreateFails : Bool
  txAuditFails : Bool

/-- ChallengeWebAuthnFactor (api/mfa.go lines 299-371).  The handler builds a
challenge row (swallowing any NewChallenge error), decodes the relying-party
configuration, and branches on the stored registration-ceremony data: when
it is absent it begins a login ceremony and persists the login session data
(ignoring the transaction's error entirely, and creating no challenge row
and no audit entry); when it is present it begins a registration ceremony,
persists the registration session data (that transaction's error is
overwritten without being checked), and then creates the challenge row and
audit entry in a second transaction. -/
def ChallengeWebAuthnFactor (config : Config) (env : ChallengeEnv) (user : User)
    (factor : Factor) (session : Session) (db : DBState) :
    Except ApiError ApiResponse × DBState :=
  let challenge := NewChallenge env.newChallengeID factor env.ipAddress env.now
  if !env.decodeConfigOk then (.error (rawError "webauthn configuration decode failure"), db) else
  match session.webauthnRegistrationSession with
  | none =>
    match env.beginLogin with
    | none => (.error (rawError "begin login failure"), db)
    | some (options, sessionData) =>
      -- `err = a.db.Transaction(...)` whose result is never inspected
      let db1 := if env.updateLoginSessionFails then db
                 else UpdateWebauthnLoginSession db session.id sessionData
      (.ok (.ceremonyOptions options), db1)
  | some _ =>
    match env.beginRegistration with
    | none => (.error (rawError "begin registration failure"), db)
    | some (options, sessionData) =>
      -- first transaction: persist the registration session; its error is
      -- overwritten by the next assignment without being checked
      let db1 := if env.updateRegistrationSessionFails then db
                 else UpdateWebauthnRegistrationSession db session.id sessionData
      if env.txCreateFails then (.error (rawError "challenge create failure"), db1) else
      if env.txAuditFails then (.error (rawError "audit write failure"), db1) else
      let db2 := NewAuditLogEntry { db1 with challenges := db1.challenges ++ [challenge] }
        ⟨.createChallengeAction, user.id, env.remoteAddr, some factor.id, some factor.status, none, none⟩
      (.ok (.ceremonyOptions options), db2)

/-- ChallengeFactor (api/mfa.go lines 255-297): builds the challenge row,
dispatches WebAuthn factors, and for TOTP factors creates the row plus an
audit entry in one transaction, answering with the id and the absolute
expiry time. -/
def ChallengeFactor (config : Config) (env : ChallengeEnv) (user : User)
    (factor : Factor) (session : Session) (db : DBState) :
    Except ApiError ApiResponse × DBState :=
  let challenge := NewChallenge env.newChallengeID factor env.ipAddress env.now
  if env.newChallengeFails then
    (.error (internalServerError "Database error creating challenge"), db)
  else
    if factor.factorType = "webauthn" then
      ChallengeWebAuthnFactor config env user factor session db
    else
      if env.txCreateFails then (.error (rawError "challenge create failure"), db) else
      if env.txAuditFails then (.error (rawError "audit write failure"), db) else
      let db1 := NewAuditLogEntry { db with challenges := db.challenges ++ [challenge] }
        ⟨.createChallengeAction, user.id, env.remoteAddr, some factor.id, some factor.status, none, none⟩
      (.ok (.challengeResp challenge.id (challenge.createdAt + config.mfa.challengeExpiryDuration)), db1)

/-- Environment of one unenrollment request. -/
structure UnenrollEnv where
  remoteAddr : String
  txDestroyFails : Bool
  txAuditFails : Bool
  downgradeFails : Bool
deriving DecidableEq, Repr

/-- UnenrollFactor (api/mfa.go lines 546-584): assurance-level gate for
verified factors, ownership check, then one transaction deleting the factor
row, writing an audit entry carrying the session id, and downgrading the
sessions tied to the removal to AAL1. -/
def UnenrollFactor (env : UnenrollEnv) (user : User) (factor : Factor)
    (session : Session) (db : DBState) : Except ApiError ApiResponse × DBState :=
  if factor.status = FactorState.verified ∧ GetAAL session ≠ AAL.aal2 then
    (.error (badRequestError "AAL2 required to unenroll verified factor"), db)
  else
    if factor.userID ≠ user.id then
      (.error (internalServerError "user must own factor to unenroll"), db)
    else
      if env.txDestroyFails then (.error (rawError "factor destroy failure"), db) else
      if env.txAuditFails then (.error (rawError "audit write failure"), db) else
      if env.downgradeFails then (.error (rawError "session downgrade failure"), db) else
      let db1 := { db with factors := db.factors.filter (fun f => decide (f.id ≠ factor.id)) }
      let db2 := NewAuditLogEntry db1
        ⟨.unenrollFactorAction, user.id, env.remoteAddr, some factor.id, some factor.status, none, some session.id⟩
      let db3 := DowngradeSessionsToAAL1 db2 factor
      (.ok (.unenrolled factor.id), db3)

/-- Whether a handler result is a success. -/
def isOkResult : Except ApiError ApiResponse → Bool
  | .ok _ => true
  | .error _ => false

/-- Whether a handler result is the capacity (403) error class. -/
def isCapacityError : Except ApiError ApiResponse → Bool
  | .error (.forbidden _) => true
  | _ => false

/-- Sample authenticated non-SSO user. -/
def sampleUser : User := ⟨1, "user@example.com", false⟩

/-- Sample enrolled webauthn factor owned by the sample user. -/
def sampleWebauthnFactor : Factor := ⟨12, 1, "security key", "webauthn", .unverified, ""⟩

/-- Sample unconsumed challenge bound to the webauthn factor, created at time 100 from "ip". -/
def waChallenge : Challenge := ⟨20, 12, "ip", 100, none⟩

/-- Sample session holding in-progress registration ceremony data. -/
def regSession : Session := ⟨31, 1, .aal1, some hardcodedRPConfig, some ⟨"storedCeremony"⟩, none⟩

/-- Sample session holding no in-progress registration ceremony data. -/
def noRegSession : Session := ⟨30, 1, .aal1, some hardcodedRPConfig, none, none⟩

/-- Sample configuration: caps 10 enrolled / 3 verified, 300 second expiry. -/
def cfgA : Config := ⟨"https://example.com", ⟨10, 3, 300⟩⟩

/-- A second configuration differing from cfgA in every service-level field. -/
def cfgB : Config := ⟨"https://other.example.org", ⟨10, 3, 300⟩⟩

/-- Verification environment at time 100 whose WebAuthn engine accepts any
creation response, with no injected collaborator failures. -/
def waEnv : VerifyEnv :=
  ⟨100, true, some ⟨20, "000000"⟩, fun _ _ => false,
   false, false, false, false, false, false, false, false,
   true, true, .ok ⟨"attestation"⟩, .error "unused",
   fun _ _ => .ok ⟨"newKey"⟩, fun _ _ => .error "unused"⟩

/-- Verification environment whose WebAuthn engine rejects exactly the
ceremony data stored on `regSession` and accepts anything else. -/
def discriminatingEnv : VerifyEnv :=
  ⟨100, true, some ⟨20, "000000"⟩, fun _ _ => false,
   false, false, false, false, false, false, false, false,
   true, true, .ok ⟨"attestation"⟩, .error "unused",
   fun sd _ => if sd = ⟨"storedCeremony"⟩ then .error "stored ceremony data rejected"
               else .ok ⟨"newKey"⟩,
   fun _ _ => .error "unused"⟩

/-- Database holding the sample user, the webauthn factor, its unconsumed
challenge and the registration-ceremony session. -/
def waDB : DBState := ⟨[sampleUser], [sampleWebauthnFactor], [waChallenge], [regSession], []⟩

/-- Challenge environment whose engine can begin either ceremony. -/
def waChallengeEnv : ChallengeEnv :=
  ⟨100, "addr", "ip", 20, false, true,
   some ("loginOptions", ⟨"loginCeremony"⟩),
   some ("registrationOptions", ⟨"registrationCeremony"⟩),
   false, false, false, false⟩

/-- Database for challenge requests: no challenge rows and no audit rows yet. -/
def waChallengeDB : DBState := ⟨[sampleUser], [sampleWebauthnFactor], [], [noRegSession], []⟩

/-- C4 (code bug): on a session holding NO in-progress registration ceremony
data, ChallengeWebAuthnFactor begins the login (assertion) ceremony and
persists login ceremony data on the session — the inverse of the claimed
dispatch rule (absent registration data should begin a registration
ceremony). -/
theorem challenge_webauthn_ceremony_inverted :
    noRegSession.webauthnRegistrationSession = none ∧
    (ChallengeWebAuthnFactor cfgA waChallengeEnv sampleUser sampleWebauthnFactor noRegSession waChallengeDB).1
      = .ok (.ceremonyOptions "loginOptions") ∧
    (ChallengeWebAuthnFactor cfgA waChallengeEnv sampleUser sampleWebauthnFactor noRegSession waChallengeDB).2.sessions
      = [{ noRegSession with webauthnLoginSession := some ⟨"loginCeremony"⟩ }] := by
  exact ⟨rfl, rfl, by decide⟩

/-- C5 (code bug): with in-progress registration ceremony data stored on the
session, VerifyWebAuthnFactor succeeds even though the engine rejects that
stored ceremony data — the engine is invoked with the freshly allocated
empty SessionData value instead — and the database is left untouched, so no
public key is ever bound to the factor. -/
theorem verify_webauthn_ignores_stored_ceremony :
    regSession.webauthnRegistrationSession = some ⟨"storedCeremony"⟩ ∧
    discriminatingEnv.createCredential ⟨"storedCeremony"⟩ ⟨"attestation"⟩
      = .error "stored ceremony data rejected" ∧
    (VerifyWebAuthnFactor discriminatingEnv sampleUser regSession waDB).1 = .ok .emptyString ∧
    (VerifyWebAuthnFactor discriminatingEnv sampleUser regSession waDB).2 = waDB := by
  refine ⟨rfl, rfl, rfl, rfl⟩

/-- C1 counterexample: a successful webauthn verification performs none of
the claimed transaction steps — the state after the call is identical to
the state before it: no audit entry is written, the challenge's
verification time remains absent, no factor is promoted or deleted, and no
session is invalidated. -/
theorem verify_webauthn_success_skips_transaction :
    (VerifyFactor cfgA waEnv sampleUser sampleWebauthnFactor regSession "ip" waDB).1
      = .ok .emptyString ∧
    (VerifyFactor cfgA waEnv sampleUser sampleWebauthnFactor regSession "ip" waDB).2 = waDB ∧
    FindChallengeByChallengeID waDB 20 = some waChallenge ∧
    waChallenge.verifiedAt = none ∧
    waDB.auditLog = [] := by
  refine ⟨rfl, rfl, rfl, rfl, rfl⟩

/-- C2 counterexample: verifying twice with the same challenge id succeeds on
BOTH calls when the factor is a webauthn factor, because a successful
webauthn verification never sets the challenge's verification time. -/
theorem verify_webauthn_challenge_replay_possible :
    waEnv.params = some ⟨20, "000000"⟩ ∧
    isOkResult (VerifyFactor cfgA waEnv sampleUser sampleWebauthnFactor regSession "ip" waDB).1
      = true ∧
    isOkResult (VerifyFactor cfgA waEnv sampleUser sampleWebauthnFactor regSession "ip"
      ((VerifyFactor cfgA waEnv sampleUser sampleWebauthnFactor regSession "ip" waDB).2)).1
      = true := by
  refine ⟨rfl, rfl, rfl⟩

/-- C7 counterexample: in the branch taken when the session holds no
registration ceremony data, ChallengeWebAuthnFactor returns success without
creating any Challenge row and without writing any audit entry. -/
theorem challenge_webauthn_login_branch_no_challenge_row :
    (ChallengeWebAuthnFactor cfgA waChallengeEnv sampleUser sampleWebauthnFactor noRegSession waChallengeDB).1
      = .ok (.ceremonyOptions "loginOptions") ∧
    (ChallengeWebAuthnFactor cfgA waChallengeEnv sampleUser sampleWebauthnFactor noRegSession waChallengeDB).2.challenges
      = [] ∧
    (ChallengeWebAuthnFactor cfgA waChallengeEnv sampleUser sampleWebauthnFactor noRegSession waChallengeDB).2.auditLog
      = [] := by
  refine ⟨rfl, rfl, rfl⟩

/-- Session with no webauthn state, used for enrollment scenarios. -/
def plainSession : Session := ⟨32, 1, .aal1, none, none, none⟩

/-- Enrollment environment for a webauthn enrollment request. -/
def enrollWAEnv : EnrollEnv :=
  ⟨"addr", true, some ⟨"security key", "webauthn", ""⟩, some "example.com",
   none, true, true, 40, false, false, false, false⟩

/-- Database with no factors for the sample user. -/
def emptyFactorDB : DBState := ⟨[sampleUser], [], [], [plainSession], []⟩

/-- C9 counterexample: the relying-party configuration stored on the session
by a webauthn enrollment is one fixed hard-coded value: it is identical
under two service configurations that differ in their site URL, and its RP
identifier is not the configured site host. -/
theorem enroll_webauthn_rp_config_hardcoded :
    cfgA.siteURL ≠ cfgB.siteURL ∧
    EnrollFactor cfgA enrollWAEnv sampleUser plainSession emptyFactorDB
      = EnrollFactor cfgB enrollWAEnv sampleUser plainSession emptyFactorDB ∧
    (EnrollFactor cfgA enrollWAEnv sampleUser plainSession emptyFactorDB).2.sessions
      = [{ plainSession with webauthnConfiguration := some hardcodedRPConfig }] ∧
    hardcodedRPConfig.rpID ≠ "example.com" := by
  refine ⟨by decide, rfl, by decide, by decide⟩

/-- Database in which the sample user already owns exactly one verified factor. -/
def oneVerifiedDB : DBState :=
  ⟨[sampleUser], [⟨13, 1, "old totp", "totp", .verified, "OLDSECRET"⟩], [], [plainSession], []⟩

/-- C6 counterexample: a webauthn enrollment fails with a capacity error even
though neither configured cap is reached (1 < 10 enrolled, 1 < 3 verified):
the webauthn path enforces a hard-coded verified-factor cap of one instead
of the configured cap. -/
theorem enroll_webauthn_verified_cap_not_configured :
    (FindFactorsByUser oneVerifiedDB sampleUser).length < cfgA.mfa.maxEnrolledFactors ∧
    numVerifiedFactors oneVerifiedDB sampleUser < cfgA.mfa.maxVerifiedFactors ∧
    (EnrollFactor cfgA enrollWAEnv sampleUser plainSession oneVerifiedDB).1
      = .error (forbiddenError "number of enrolled factors exceeds the allowed value, unenroll to continue") := by
  refine ⟨by decide, by decide, rfl⟩

/-- Marking a challenge verified rewrites exactly the row with that id. -/
theorem find_mark_challenge (l : List Challenge) (cid now : Nat) (c : Challenge)
    (h : l.find? (fun x => decide (x.id = cid)) = some c) :
    (l.map (fun x => if x.id = cid then { x with verifiedAt := some now } else x)).find?
      (fun x => decide (x.id = cid)) = some { c with verifiedAt := some now } := by
  induction l with
  | nil => simp at h
  | cons a l ih =>
    by_cases hc : a.id = cid
    · rw [List.find?_cons_of_pos _ (by simpa using hc)] at h
      injection h with h
      subst h
      simp only [List.map_cons, if_pos hc]
      rw [List.find?_cons_of_pos _ (by simpa using hc)]
    · rw [List.find?_cons_of_neg _ (by simpa using hc)] at h
      simp only [List.map_cons, if_neg hc]
      rw [List.find?_cons_of_neg _ (by simpa using hc)]
      exact ih h

/-- Looking up a challenge after marking it verified in the store. -/
theorem FindChallenge_markChallengeVerified (db : DBState) (cid now : Nat) (c : Challenge)
    (h : FindChallengeByChallengeID db cid = some c) :
    FindChallengeByChallengeID (markChallengeVerified db cid now) cid
      = some { c with verifiedAt := some now } :=
  find_mark_challenge db.challenges cid now c h

/-- A destroyed challenge can no longer be found. -/
theorem FindChallenge_destroy (db : DBState) (c : Challenge) (cid : Nat) (hc : c.id = cid) :
    FindChallengeByChallengeID (destroyChallenge db c) cid = none := by
  unfold FindChallengeByChallengeID destroyChallenge
  rw [List.find?_eq_none]
  intro a ha
  simp only [List.mem_filter, decide_eq_true_eq] at ha
  simp only [decide_eq_true_eq]
  subst hc
  exact ha.2

/-- The id of a user found by id. -/
theorem FindUserByID_id (db : DBState) (uid : Nat) (u : User)
    (h : FindUserByID db uid = some u) : u.id = uid := by
  unfold FindUserByID at h
  simpa using List.find?_some h

/-- The id of a challenge found by id. -/
theorem FindChallenge_id (db : DBState) (cid : Nat) (c : Challenge)
    (h : FindChallengeByChallengeID db cid = some c) : c.id = cid := by
  unfold FindChallengeByChallengeID at h
  simpa using List.find?_some h

/-- The audit entry written by the verification transaction. -/
def verifyAuditEntry (user : User) (factor : Factor) (challenge : Challenge)
    (addr : String) : AuditLogEntry :=
  ⟨.verifyFactorAction, user.id, addr, some factor.id, none, some challenge.id, none⟩

/-- The state committed by a successful verification transaction: audit
entry, challenge consumption, conditional promotion, session elevation,
invalidation of weaker sessions and sweep of unverified factors. -/
def verifyCommittedState (env : VerifyEnv) (user : User) (factor : Factor) (session : Session)
    (challenge : Challenge) (addr : String) (uid2 : Nat) (db : DBState) : DBState :=
  let db1 := NewAuditLogEntry db (verifyAuditEntry user factor challenge addr)
  let dbm := markChallengeVerified db1 challenge.id env.now
  let db3 := if factor.status ≠ FactorState.verified
             then updateFactorStatus dbm factor.id FactorState.verified
             else dbm
  DeleteUnverifiedFactors (InvalidateSessionsWithAALLessThan
    (elevateSessionToAAL2 db3 session.id) uid2 .aal2) uid2

/-- The verification transaction succeeds exactly with the committed state
when no collaborator step fails. -/
theorem verifyFactorTransaction_ok (env : VerifyEnv) (user : User) (factor : Factor)
    (session : Session) (challenge : Challenge) (addr : String) (db : DBState) (user2 : User)
    (haud : env.auditFails = false) (hver : env.challengeVerifyFails = false)
    (hupd : factor.status = FactorState.unverified → env.updateStatusFails = false)
    (huser : FindUserByID db user.id = some user2)
    (hmfa : env.updateMFAFails = false) (hck : env.setCookieFails = false)
    (hinv : env.invalidateFails = false) (hdel : env.deleteUnverifiedFails = false) :
    verifyFactorTransaction env user factor session challenge addr db
      = .ok (⟨user2.id, factor.id⟩,
             verifyCommittedState env user factor session challenge addr user2.id db) := by
  unfold verifyFactorTransaction verifyCommittedState
  rcases hst : factor.status with _ | _
  · rw [haud, hver, hupd hst]
    simp only [Bool.false_eq_true, if_false, if_true, ne_eq, reduceCtorEq, not_false_iff,
      not_true, eq_self_iff_true, verifyAuditEntry, hmfa, hck, hinv, hdel]
    have huser2 : FindUserByID (updateFactorStatus (markChallengeVerified
        (NewAuditLogEntry db ⟨.verifyFactorAction, user.id, addr, some factor.id, none,
          some challenge.id, none⟩) challenge.id env.now) factor.id FactorState.verified)
        user.id = some user2 := huser
    rw [huser2]
  · rw [haud, hver]
    simp only [Bool.false_eq_true, if_false, if_true, ne_eq, reduceCtorEq, not_false_iff,
      not_true, eq_self_iff_true, verifyAuditEntry, hmfa, hck, hinv, hdel]
    have huser2 : FindUserByID (markChallengeVerified
        (NewAuditLogEntry db ⟨.verifyFactorAction, user.id, addr, some factor.id, none,
          some challenge.id, none⟩) challenge.id env.now)
        user.id = some user2 := huser
    rw [huser2]

/-- Inversion: any successful run of the verification transaction committed
exactly the committed state for the freshly read user row. -/
theorem verifyFactorTransaction_ok_inv (env : VerifyEnv) (user : User) (factor : Factor)
    (session : Session) (challenge : Challenge) (addr : String) (db : DBState)
    (token : AccessTokenResponse) (db2 : DBState)
    (h : verifyFactorTransaction env user factor session challenge addr db = .ok (token, db2)) :
    ∃ user2, FindUserByID db user.id = some user2 ∧
      db2 = verifyCommittedState env user factor session challenge addr user2.id db := by
  unfold verifyFactorTransaction at h
  dsimp only [] at h
  split at h
  · simp at h
  · split at h
    · simp at h
    · split at h
      · rename_i hst
        split at h
        · simp at h
        · split at h
          · simp at h
          · rename_i user2 heq
            split at h
            · simp at h
            · split at h
              · simp at h
              · split at h
                · simp at h
                · split at h
                  · simp at h
                  · injection h with h
                    refine ⟨user2, heq, ?_⟩
                    have hdb := congrArg Prod.snd h
                    dsimp only [] at hdb
                    rw [← hdb]
                    simp [verifyCommittedState, verifyAuditEntry, hst]
      · rename_i hst
        push_neg at hst
        split at h
        · simp at h
        · rename_i user2 heq
          split at h
          · simp at h
          · split at h
            · simp at h
            · split at h
              · simp at h
              · split at h
                · simp at h
                · injection h with h
                  refine ⟨user2, heq, ?_⟩
                  have hdb := congrArg Prod.snd h
                  dsimp only [] at hdb
                  rw [← hdb]
                  simp [verifyCommittedState, verifyAuditEntry, hst]

/-- The committed state rewrites exactly the consumed challenge row. -/
theorem verifyCommittedState_challenges (env : VerifyEnv) (user : User) (factor : Factor)
    (session : Session) (challenge : Challenge) (addr : String) (uid2 : Nat) (db : DBState) :
    (verifyCommittedState env user factor session challenge addr uid2 db).challenges
      = db.challenges.map
          (fun c => if c.id = challenge.id then { c with verifiedAt := some env.now } else c) := by
  dsimp only [verifyCommittedState]
  split
  · rfl
  · rfl

/-- The committed state contains the verification audit entry. -/
theorem verifyCommittedState_audit (env : VerifyEnv) (user : User) (factor : Factor)
    (session : Session) (challenge : Challenge) (addr : String) (uid2 : Nat) (db : DBState) :
    verifyAuditEntry user factor challenge addr
      ∈ (verifyCommittedState env user factor session challenge addr uid2 db).auditLog := by
  dsimp only [verifyCommittedState]
  split
  · simp [DeleteUnverifiedFactors, InvalidateSessionsWithAALLessThan, elevateSessionToAAL2,
      updateFactorStatus, markChallengeVerified, NewAuditLogEntry]
  · simp [DeleteUnverifiedFactors, InvalidateSessionsWithAALLessThan, elevateSessionToAAL2,
      markChallengeVerified, NewAuditLogEntry]

/-- The committed state keeps the verified factor row. -/
theorem verifyCommittedState_factor_mem (env : VerifyEnv) (user : User) (factor : Factor)
    (session : Session) (challenge : Challenge) (addr : String) (uid2 : Nat) (db : DBState)
    (hmem : factor ∈ db.factors) :
    { factor with status := FactorState.verified }
      ∈ (verifyCommittedState env user factor session challenge addr uid2 db).factors := by
  dsimp only [verifyCommittedState]
  split
  · simp only [DeleteUnverifiedFactors, InvalidateSessionsWithAALLessThan, elevateSessionToAAL2,
      updateFactorStatus, markChallengeVerified, NewAuditLogEntry, List.mem_filter, List.mem_map]
    refine ⟨⟨factor, hmem, by simp⟩, by simp⟩
  · rename_i hst
    push_neg at hst
    simp only [DeleteUnverifiedFactors, InvalidateSessionsWithAALLessThan, elevateSessionToAAL2,
      markChallengeVerified, NewAuditLogEntry, List.mem_filter]
    constructor
    · have heq : { factor with status := FactorState.verified } = factor := by
        cases factor
        simp_all
      rw [heq]
      exact hmem
    · simp

/-- After commit, every factor row the user still owns is verified. -/
theorem verifyCommittedState_factors_verified (env : VerifyEnv) (user : User) (factor : Factor)
    (session : Session) (challenge : Challenge) (addr : String) (uid2 : Nat) (db : DBState) :
    ∀ f2 ∈ (verifyCommittedState env user factor session challenge addr uid2 db).factors,
      f2.userID = uid2 → f2.status = FactorState.verified := by
  intro f2 hf2 hfu
  dsimp only [verifyCommittedState] at hf2
  have hmem : f2 ∈ (verifyCommittedState env user factor session challenge addr uid2 db).factors := by
    dsimp only [verifyCommittedState]
    exact hf2
  revert hf2
  split
  all_goals
    intro hf2
    simp only [DeleteUnverifiedFactors, List.mem_filter] at hf2
    have hcond := hf2.2
    rw [hfu] at hcond
    simp at hcond
    cases hs : f2.status
    · exact absurd hs hcond
    · rfl

/-- After commit, every session row the user still owns is at AAL2. -/
theorem verifyCommittedState_sessions (env : VerifyEnv) (user : User) (factor : Factor)
    (session : Session) (challenge : Challenge) (addr : String) (uid2 : Nat) (db : DBState) :
    ∀ s2 ∈ (verifyCommittedState env user factor session challenge addr uid2 db).sessions,
      s2.userID = uid2 → s2.aal = AAL.aal2 := by
  intro s2 hs2 hsu
  dsimp only [verifyCommittedState] at hs2
  revert hs2
  split
  all_goals
    intro hs2
    simp only [DeleteUnverifiedFactors, InvalidateSessionsWithAALLessThan, List.mem_filter] at hs2
    have hcond := hs2.2
    rw [hsu] at hcond
    simp at hcond
    cases ha : s2.aal
    · rw [ha] at hcond; simp [aalLessThan] at hcond
    · rfl

/-- For an already-verified factor the commit rewrites no factor row: it only
removes the user's unverified rows. -/
theorem verifyCommittedState_factors_of_verified (env : VerifyEnv) (user : User) (factor : Factor)
    (session : Session) (challenge : Challenge) (addr : String) (uid2 : Nat) (db : DBState)
    (hst : factor.status = FactorState.verified) :
    (verifyCommittedState env user factor session challenge addr uid2 db).factors
      = db.factors.filter
          (fun f => !(decide (f.userID = uid2) && decide (f.status = FactorState.unverified))) := by
  dsimp only [verifyCommittedState]
  rw [if_neg (by simp [hst])]
  rfl

/-- Looking up the consumed challenge in the committed state. -/
theorem FindChallenge_committed (env : VerifyEnv) (user : User) (factor : Factor)
    (session : Session) (challenge : Challenge) (addr : String) (uid2 : Nat) (db : DBState)
    (cid : Nat) (hfind : FindChallengeByChallengeID db cid = some challenge) :
    FindChallengeByChallengeID (verifyCommittedState env user factor session challenge addr uid2 db) cid
      = some { challenge with verifiedAt := some env.now } := by
  have hid : challenge.id = cid := FindChallenge_id db cid challenge hfind
  have hch := verifyCommittedState_challenges env user factor session challenge addr uid2 db
  unfold FindChallengeByChallengeID
  have hfm := find_mark_challenge db.challenges cid env.now challenge hfind
  rw [hch, hid]
  rw [hid] at hfm
  exact hfm

/-- Under passing guards, VerifyFactor reduces to TOTP validation plus the
success transaction. -/
theorem VerifyFactor_totp_eq (config : Config) (env : VerifyEnv) (user : User) (factor : Factor)
    (session : Session) (ip : String) (db : DBState) (params : VerifyFactorParams)
    (challenge : Challenge)
    (hbody : env.bodyOk = true) (hp : env.params = some params)
    (hown : factor.userID = user.id)
    (hfind : FindChallengeByChallengeID db params.challengeID = some challenge)
    (hnv : challenge.verifiedAt = none) (hip : challenge.ipAddress = ip)
    (hexp : ¬ challenge.createdAt + config.mfa.challengeExpiryDuration < env.now)
    (hty : factor.factorType ≠ "webauthn") :
    VerifyFactor config env user factor session ip db
      = if !(env.totpValidates params.code factor.secret) then
          (.error (badRequestError "Invalid TOTP code entered"), db)
        else
          match verifyFactorTransaction env user factor session challenge ip db with
          | .error e => (.error e, db)
          | .ok (token, db2) => (.ok (.token token), db2) := by
  unfold VerifyFactor
  simp only [hbody, hp, Bool.not_true, Bool.false_eq_true, if_false]
  rw [if_neg (by simp [hown])]
  simp only [hfind]
  rw [if_neg (by simp [hnv, hip]), if_neg hexp, if_neg hty]

/-- A passing run with a consumed or cross-IP challenge always yields the
mismatch validation error and leaves the state untouched. -/
theorem VerifyFactor_guard_mismatch (config : Config) (env : VerifyEnv) (user : User)
    (factor : Factor) (session : Session) (ip : String) (db : DBState)
    (params : VerifyFactorParams) (challenge : Challenge)
    (hbody : env.bodyOk = true) (hp : env.params = some params)
    (hown : factor.userID = user.id)
    (hfind : FindChallengeByChallengeID db params.challengeID = some challenge)
    (hguard : challenge.verifiedAt ≠ none ∨ challenge.ipAddress ≠ ip) :
    VerifyFactor config env user factor session ip db
      = (.error (badRequestError "Challenge and verify IP addresses mismatch"), db) := by
  unfold VerifyFactor
  simp only [hbody, hp, Bool.not_true, Bool.false_eq_true, if_false]
  rw [if_neg (by simp [hown])]
  simp only [hfind]
  rw [if_pos hguard]

/-- An expired challenge (that passed the earlier guards) is destroyed and
answered with the expiry error. -/
theorem VerifyFactor_expired (config : Config) (env : VerifyEnv) (user : User)
    (factor : Factor) (session : Session) (ip : String) (db : DBState)
    (params : VerifyFactorParams) (challenge : Challenge)
    (hbody : env.bodyOk = true) (hp : env.params = some params)
    (hown : factor.userID = user.id)
    (hfind : FindChallengeByChallengeID db params.challengeID = some challenge)
    (hnv : challenge.verifiedAt = none) (hip : challenge.ipAddress = ip)
    (hexp : challenge.createdAt + config.mfa.challengeExpiryDuration < env.now)
    (hd : env.destroyChallengeFails = false) :
    VerifyFactor config env user factor session ip db
      = (.error (badRequestError "challenge has expired, verify against another challenge or create a new challenge."),
         destroyChallenge db challenge) := by
  unfold VerifyFactor
  simp only [hbody, hp, Bool.not_true, Bool.false_eq_true, if_false]
  rw [if_neg (by simp [hown])]
  simp only [hfind]
  rw [if_neg (by simp [hnv, hip]), if_pos hexp]
  simp only [hd, Bool.false_eq_true, if_false]

/-- Any successful verification run found an unconsumed challenge from the
matching IP: the single-use and IP guards sit in front of every success
path, whichever the factor type. -/
theorem VerifyFactor_ok_find (config : Config) (env : VerifyEnv) (user : User)
    (factor : Factor) (session : Session) (ip : String) (db : DBState) (r : ApiResponse)
    (h : (VerifyFactor config env user factor session ip db).1 = .ok r) :
    ∃ params challenge, env.params = some params ∧
      FindChallengeByChallengeID db params.challengeID = some challenge ∧
      challenge.verifiedAt = none ∧ challenge.ipAddress = ip := by
  unfold VerifyFactor at h
  split at h
  · simp at h
  · split at h
    · simp at h
    · rename_i params hp
      split at h
      · simp at h
      · split at h
        · simp at h
        · rename_i challenge hfind
          split at h
          · simp at h
          · rename_i hguard
            push_neg at hguard
            exact ⟨params, challenge, hp, hfind, hguard.1, hguard.2⟩

/-- After a successful non-webauthn verification, the store holds the
challenge with its verification time set to the request clock. -/
theorem VerifyFactor_totp_ok_marked (config : Config) (env : VerifyEnv) (user : User)
    (factor : Factor) (session : Session) (ip : String) (db : DBState) (r : ApiResponse)
    (hty : factor.factorType ≠ "webauthn")
    (h : (VerifyFactor config env user factor session ip db).1 = .ok r) :
    ∃ params challenge, env.params = some params ∧
      FindChallengeByChallengeID db params.challengeID = some challenge ∧
      FindChallengeByChallengeID (VerifyFactor config env user factor session ip db).2
        params.challengeID = some { challenge with verifiedAt := some env.now } := by
  set run := VerifyFactor config env user factor session ip db with hrun
  unfold VerifyFactor at hrun
  split at hrun
  · rw [hrun] at h; simp at h
  · split at hrun
    · rw [hrun] at h; simp at h
    · rename_i params hp
      split at hrun
      · rw [hrun] at h; simp at h
      · split at hrun
        · rw [hrun] at h; simp at h
        · rename_i challenge hfind
          split at hrun
          · rw [hrun] at h; simp at h
          · split at hrun
            · rw [hrun] at h
              split at h
              · simp at h
              · simp at h
            · split at hrun
              · rw [hrun] at h; simp at h
              · split at hrun
                · rw [hrun] at h; simp at h
                · rename_i token db2 htx
                  obtain ⟨user2, huser, hcommit⟩ :=
                    verifyFactorTransaction_ok_inv _ _ _ _ _ _ _ _ _ htx
                  refine ⟨params, challenge, hp, hfind, ?_⟩
                  rw [hrun]
                  dsimp only []
                  rw [hcommit]
                  exact FindChallenge_committed _ _ _ _ _ _ _ _ _ hfind

/-- A verification request that names a challenge whose verification time is
already set can never succeed. -/
theorem VerifyFactor_fails_on_verified (config : Config) (env : VerifyEnv) (user : User)
    (factor : Factor) (session : Session) (ip : String) (db : DBState)
    (params : VerifyFactorParams)
    (hp : env.params = some params)
    (hc : ∀ c, FindChallengeByChallengeID db params.challengeID = some c → c.verifiedAt ≠ none) :
    isOkResult (VerifyFactor config env user factor session ip db).1 = false := by
  cases hres : (VerifyFactor config env user factor session ip db).1 with
  | error e => rfl
  | ok r =>
    exfalso
    obtain ⟨p2, c2, hp2, hf2, hnv2, _⟩ :=
      VerifyFactor_ok_find config env user factor session ip db r hres
    rw [hp] at hp2
    injection hp2 with hp2
    subst hp2
    exact hc c2 hf2 hnv2

/-- C3: a verification request that reaches the expiry check after the
challenge's creation time plus the configured expiry duration deletes the
challenge in its own transaction and fails with the expiry error; a TOTP
verification arriving before expiry with a correct code, passing the other
checks and with no collaborator failure, succeeds. -/
theorem verify_challenge_expiry
    (config : Config) (env : VerifyEnv) (user : User) (factor : Factor)
    (session : Session) (ip : String) (db : DBState) (params : VerifyFactorParams)
    (challenge : Challenge) (user2 : User)
    (hbody : env.bodyOk = true) (hp : env.params = some params)
    (hown : factor.userID = user.id)
    (hfind : FindChallengeByChallengeID db params.challengeID = some challenge)
    (hnv : challenge.verifiedAt = none) (hip : challenge.ipAddress = ip) :
    (challenge.createdAt + config.mfa.challengeExpiryDuration < env.now →
      env.destroyChallengeFails = false →
      VerifyFactor config env user factor session ip db
        = (.error (badRequestError "challenge has expired, verify against another challenge or create a new challenge."),
           destroyChallenge db challenge)
      ∧ FindChallengeByChallengeID (VerifyFactor config env user factor session ip db).2
          params.challengeID = none)
    ∧ (¬ challenge.createdAt + config.mfa.challengeExpiryDuration < env.now →
      factor.factorType = "totp" →
      env.totpValidates params.code factor.secret = true →
      env.auditFails = false → env.challengeVerifyFails = false →
      env.updateStatusFails = false →
      FindUserByID db user.id = some user2 →
      env.updateMFAFails = false → env.setCookieFails = false →
      env.invalidateFails = false → env.deleteUnverifiedFails = false →
      ∃ tok, (VerifyFactor config env user factor session ip db).1 = .ok (.token tok)) := by
  constructor
  · intro hexp hd
    have heq := VerifyFactor_expired config env user factor session ip db params challenge
      hbody hp hown hfind hnv hip hexp hd
    refine ⟨heq, ?_⟩
    rw [heq]
    exact FindChallenge_destroy db challenge params.challengeID (FindChallenge_id _ _ _ hfind)
  · intro hexp hty hcode haud hver hupd huser hmfa hck hinv hdel
    have heq := VerifyFactor_totp_eq config env user factor session ip db params challenge
      hbody hp hown hfind hnv hip hexp (by rw [hty]; decide)
    have htx := verifyFactorTransaction_ok env user factor session challenge ip db user2
      haud hver (fun _ => hupd) huser hmfa hck hinv hdel
    refine ⟨⟨user2.id, factor.id⟩, ?_⟩
    rw [heq, hcode]
    simp only [Bool.not_true, Bool.false_eq_true, if_false]
    rw [htx]

/-- C10: ownership check, challenge lookup, single-use check, IP-binding
check and lazy expiry check all run before the dispatch on the factor type:
each clause below holds for an arbitrary factor (webauthn included) and
arbitrary engine behaviour, and an expired challenge is deleted and
rejected whatever the factor type and whatever the submitted proof. -/
theorem verify_guards_before_dispatch
    (config : Config) (env : VerifyEnv) (user : User) (factor : Factor)
    (session : Session) (ip : String) (db : DBState) (params : VerifyFactorParams)
    (hbody : env.bodyOk = true) (hp : env.params = some params) :
    (factor.userID ≠ user.id →
      VerifyFactor config env user factor session ip db
        = (.error (internalServerError "user needs to own factor to verify"), db))
    ∧ (factor.userID = user.id →
       FindChallengeByChallengeID db params.challengeID = none →
       VerifyFactor config env user factor session ip db
         = (.error (notFoundError "challenge not found"), db))
    ∧ (∀ challenge, factor.userID = user.id →
       FindChallengeByChallengeID db params.challengeID = some challenge →
       (challenge.verifiedAt ≠ none ∨ challenge.ipAddress ≠ ip) →
       VerifyFactor config env user factor session ip db
         = (.error (badRequestError "Challenge and verify IP addresses mismatch"), db))
    ∧ (∀ challenge, factor.userID = user.id →
       FindChallengeByChallengeID db params.challengeID = some challenge →
       challenge.verifiedAt = none → challenge.ipAddress = ip →
       challenge.createdAt + config.mfa.challengeExpiryDuration < env.now →
       env.destroyChallengeFails = false →
       VerifyFactor config env user factor session ip db
         = (.error (badRequestError "challenge has expired, verify against another challenge or create a new challenge."),
            destroyChallenge db challenge)
       ∧ FindChallengeByChallengeID (VerifyFactor config env user factor session ip db).2
           params.challengeID = none) := by
  refine ⟨?_, ?_, ?_, ?_⟩
  · intro hown
    unfold VerifyFactor
    simp only [hbody, hp, Bool.not_true, Bool.false_eq_true, if_false]
    rw [if_pos hown]
  · intro hown hnone
    unfold VerifyFactor
    simp only [hbody, hp, Bool.not_true, Bool.false_eq_true, if_false]
    rw [if_neg (by simp [hown])]
    simp only [hnone]
  · intro challenge hown hfind hguard
    exact VerifyFactor_guard_mismatch config env user factor session ip db params challenge
      hbody hp hown hfind hguard
  · intro challenge hown hfind hnv hip hexp hd
    have heq := VerifyFactor_expired config env user factor session ip db params challenge
      hbody hp hown hfind hnv hip hexp hd
    refine ⟨heq, ?_⟩
    rw [heq]
    exact FindChallenge_destroy db challenge params.challengeID (FindChallenge_id _ _ _ hfind)

/-- C2 (amended): a consumed or cross-IP challenge always fails with the
mismatch validation error whatever the submitted proof and factor type; and
after a successful non-webauthn (TOTP) verification, every further call
naming the same challenge id fails, because the success marked the
challenge verified.  (A successful webauthn verification does not consume
the challenge, see the counterexample.) -/
theorem verify_replay_and_ip_guard :
    (∀ (config : Config) (env : VerifyEnv) (user : User) (factor : Factor) (session : Session)
       (ip : String) (db : DBState) (params : VerifyFactorParams) (challenge : Challenge),
       env.bodyOk = true → env.params = some params →
       factor.userID = user.id →
       FindChallengeByChallengeID db params.challengeID = some challenge →
       (challenge.verifiedAt ≠ none ∨ challenge.ipAddress ≠ ip) →
       VerifyFactor config env user factor session ip db
         = (.error (badRequestError "Challenge and verify IP addresses mismatch"), db))
    ∧ (∀ (config : Config) (env : VerifyEnv) (user : User) (factor : Factor) (session : Session)
       (ip : String) (db : DBState) (r : ApiResponse),
       factor.factorType ≠ "webauthn" →
       (VerifyFactor config env user factor session ip db).1 = .ok r →
       ∀ params, env.params = some params →
       ∀ (config2 : Config) (env2 : VerifyEnv) (user2 : User) (factor2 : Factor)
         (session2 : Session) (ip2 : String) (params2 : VerifyFactorParams),
         env2.params = some params2 → params2.challengeID = params.challengeID →
         isOkResult (VerifyFactor config2 env2 user2 factor2 session2 ip2
           (VerifyFactor config env user factor session ip db).2).1 = false) := by
  constructor
  · intro config env user factor session ip db params challenge hbody hp hown hfind hguard
    exact VerifyFactor_guard_mismatch config env user factor session ip db params challenge
      hbody hp hown hfind hguard
  · intro config env user factor session ip db r hty hok params hp
      config2 env2 user2 factor2 session2 ip2 params2 hp2 hcid
    obtain ⟨p', c', hp', hf', hmark⟩ :=
      VerifyFactor_totp_ok_marked config env user factor session ip db r hty hok
    rw [hp] at hp'
    injection hp' with hp'
    subst hp'
    apply VerifyFactor_fails_on_verified config2 env2 user2 factor2 session2 ip2 _ params2 hp2
    intro c hc
    rw [hcid] at hc
    rw [hmark] at hc
    injection hc with hc
    rw [← hc]
    simp

/-- C1 (amended): a TOTP verification that passes every guard commits, in
one transaction, the audit entry, the challenge consumption, the promotion
of the factor (skipped without error when the factor is already verified:
success then needs no working status update), the invalidation of every
session of the user below AAL2, and the deletion of every remaining
unverified factor of the user; and whenever any step fails, the state is
left exactly as before the call, the challenge unconsumed. -/
theorem verify_totp_success_transaction
    (config : Config) (env : VerifyEnv) (user : User) (factor : Factor)
    (session : Session) (ip : String) (db : DBState) (params : VerifyFactorParams)
    (challenge : Challenge) (user2 : User)
    (hbody : env.bodyOk = true) (hp : env.params = some params)
    (hown : factor.userID = user.id)
    (hfind : FindChallengeByChallengeID db params.challengeID = some challenge)
    (hnv : challenge.verifiedAt = none) (hip : challenge.ipAddress = ip)
    (hexp : ¬ challenge.createdAt + config.mfa.challengeExpiryDuration < env.now)
    (hty : factor.factorType ≠ "webauthn")
    (hmem : factor ∈ db.factors)
    (huser : FindUserByID db user.id = some user2) :
    (∀ e, (VerifyFactor config env user factor session ip db).1 = .error e →
       (VerifyFactor config env user factor session ip db).2 = db)
    ∧ (env.totpValidates params.code factor.secret = true →
       env.auditFails = false → env.challengeVerifyFails = false →
       (factor.status = FactorState.unverified → env.updateStatusFails = false) →
       env.updateMFAFails = false → env.setCookieFails = false →
       env.invalidateFails = false → env.deleteUnverifiedFails = false →
       VerifyFactor config env user factor session ip db
         = (.ok (.token ⟨user2.id, factor.id⟩),
            verifyCommittedState env user factor session challenge ip user2.id db)
       ∧ verifyAuditEntry user factor challenge ip
           ∈ (VerifyFactor config env user factor session ip db).2.auditLog
       ∧ FindChallengeByChallengeID (VerifyFactor config env user factor session ip db).2
           params.challengeID = some { challenge with verifiedAt := some env.now }
       ∧ { factor with status := FactorState.verified }
           ∈ (VerifyFactor config env user factor session ip db).2.factors
       ∧ (∀ f2 ∈ (VerifyFactor config env user factor session ip db).2.factors,
            f2.userID = user.id → f2.status = FactorState.verified)
       ∧ (∀ s2 ∈ (VerifyFactor config env user factor session ip db).2.sessions,
            s2.userID = user.id → s2.aal = AAL.aal2)
       ∧ (factor.status = FactorState.verified →
            (VerifyFactor config env user factor session ip db).2.factors
              = db.factors.filter
                  (fun f => !(decide (f.userID = user.id) && decide (f.status = FactorState.unverified))))) := by
  have heq := VerifyFactor_totp_eq config env user factor session ip db params challenge
    hbody hp hown hfind hnv hip hexp hty
  have huid : user2.id = user.id := FindUserByID_id db user.id user2 huser
  constructor
  · intro e herr
    rw [heq] at herr ⊢
    revert herr
    split
    · intro _; rfl
    · split
      · intro _; rfl
      · intro herr
        exact absurd herr (by simp)
  · intro hcode haud hver hupd hmfa hck hinv hdel
    have htx := verifyFactorTransaction_ok env user factor session challenge ip db user2
      haud hver hupd huser hmfa hck hinv hdel
    have hrun : VerifyFactor config env user factor session ip db
        = (.ok (.token ⟨user2.id, factor.id⟩),
           verifyCommittedState env user factor session challenge ip user2.id db) := by
      rw [heq, hcode]
      simp only [Bool.not_true, Bool.false_eq_true, if_false]
      rw [htx]
    refine ⟨hrun, ?_, ?_, ?_, ?_, ?_, ?_⟩
    · rw [hrun]
      exact verifyCommittedState_audit env user factor session challenge ip user2.id db
    · rw [hrun]
      exact FindChallenge_committed env user factor session challenge ip user2.id db
        params.challengeID hfind
    · rw [hrun]
      exact verifyCommittedState_factor_mem env user factor session challenge ip user2.id db hmem
    · rw [hrun]
      intro f2 hf2 hfu
      exact verifyCommittedState_factors_verified env user factor session challenge ip user2.id db
        f2 hf2 (by rw [hfu, ← huid])
    · rw [hrun]
      intro s2 hs2 hsu
      exact verifyCommittedState_sessions env user factor session challenge ip user2.id db
        s2 hs2 (by rw [hsu, ← huid])
    · intro hst
      rw [hrun]
      rw [verifyCommittedState_factors_of_verified env user factor session challenge ip
        user2.id db hst, huid]

/-- Sample enrolled TOTP factor owned by the sample user. -/
def totpFactor : Factor := ⟨10, 1, "phone", "totp", .unverified, "TOTPSECRET"⟩

/-- Sample unconsumed challenge bound to the TOTP factor, created at 100 from "ip". -/
def totpChallenge : Challenge := ⟨21, 10, "ip", 100, none⟩

/-- Database holding the sample user, the TOTP factor, its challenge and a
plain AAL1 session. -/
def totpDB : DBState := ⟨[sampleUser], [totpFactor], [totpChallenge], [plainSession], []⟩

/-- Verification environment at time 100 whose TOTP validator accepts every
code, with no injected collaborator failure. -/
def totpEnv : VerifyEnv :=
  ⟨100, true, some ⟨21, "123456"⟩, fun _ _ => true,
   false, false, false, false, false, false, false, false,
   true, true, .error "unused", .error "unused",
   fun _ _ => .error "unused", fun _ _ => .error "unused"⟩

/-- The same environment with the clock moved past the challenge expiry. -/
def lateEnv : VerifyEnv := { totpEnv with now := 500 }

/-- A consumed challenge bound to the TOTP factor. -/
def usedChallenge : Challenge := ⟨22, 10, "ip", 100, some 150⟩

/-- Database holding the consumed challenge. -/
def usedDB : DBState := ⟨[sampleUser], [totpFactor], [usedChallenge], [plainSession], []⟩

/-- Environment naming the consumed challenge. -/
def usedEnv : VerifyEnv := { totpEnv with params := some ⟨22, "123456"⟩ }

/-- The webauthn verification environment with the clock past expiry. -/
def lateWAEnv : VerifyEnv := { waEnv with now := 500 }

/-- C1 witness: the TOTP success theorem evaluated at a concrete request. -/
theorem verify_totp_success_transaction_witness :
    VerifyFactor cfgA totpEnv sampleUser totpFactor plainSession "ip" totpDB
      = (.ok (.token ⟨1, 10⟩),
         verifyCommittedState totpEnv sampleUser totpFactor plainSession totpChallenge "ip" 1 totpDB)
    ∧ verifyAuditEntry sampleUser totpFactor totpChallenge "ip"
        ∈ (VerifyFactor cfgA totpEnv sampleUser totpFactor plainSession "ip" totpDB).2.auditLog
    ∧ FindChallengeByChallengeID
        (VerifyFactor cfgA totpEnv sampleUser totpFactor plainSession "ip" totpDB).2 21
        = some { totpChallenge with verifiedAt := some 100 } := by
  have h := (verify_totp_success_transaction cfgA totpEnv sampleUser totpFactor plainSession "ip"
    totpDB ⟨21, "123456"⟩ totpChallenge sampleUser rfl rfl rfl rfl rfl rfl (by decide) (by decide)
    (by decide) rfl).2 rfl rfl rfl (fun _ => rfl) rfl rfl rfl rfl
  exact ⟨h.1, h.2.1, h.2.2.1⟩

/-- C2 witness: the guard theorem evaluated at a consumed challenge, and the
replay-failure clause evaluated after a concrete TOTP success. -/
theorem verify_replay_and_ip_guard_witness :
    VerifyFactor cfgA usedEnv sampleUser totpFactor plainSession "ip" usedDB
      = (.error (badRequestError "Challenge and verify IP addresses mismatch"), usedDB)
    ∧ isOkResult (VerifyFactor cfgA totpEnv sampleUser totpFactor plainSession "ip"
        (VerifyFactor cfgA totpEnv sampleUser totpFactor plainSession "ip" totpDB).2).1 = false := by
  constructor
  · exact verify_replay_and_ip_guard.1 cfgA usedEnv sampleUser totpFactor plainSession "ip"
      usedDB ⟨22, "123456"⟩ usedChallenge rfl rfl rfl rfl (Or.inl (by decide))
  · exact verify_replay_and_ip_guard.2 cfgA totpEnv sampleUser totpFactor plainSession "ip"
      totpDB (.token ⟨1, 10⟩) (by decide) rfl ⟨21, "123456"⟩ rfl
      cfgA totpEnv sampleUser totpFactor plainSession "ip" ⟨21, "123456"⟩ rfl rfl

/-- C3 witness: expiry and in-window success at concrete requests. -/
theorem verify_challenge_expiry_witness :
    (VerifyFactor cfgA lateEnv sampleUser totpFactor plainSession "ip" totpDB
       = (.error (badRequestError "challenge has expired, verify against another challenge or create a new challenge."),
          destroyChallenge totpDB totpChallenge)
     ∧ FindChallengeByChallengeID
         (VerifyFactor cfgA lateEnv sampleUser totpFactor plainSession "ip" totpDB).2 21 = none)
    ∧ ∃ tok, (VerifyFactor cfgA totpEnv sampleUser totpFactor plainSession "ip" totpDB).1
        = .ok (.token tok) := by
  constructor
  · exact (verify_challenge_expiry cfgA lateEnv sampleUser totpFactor plainSession "ip" totpDB
      ⟨21, "123456"⟩ totpChallenge sampleUser rfl rfl rfl rfl rfl rfl).1 (by decide) rfl
  · exact (verify_challenge_expiry cfgA totpEnv sampleUser totpFactor plainSession "ip" totpDB
      ⟨21, "123456"⟩ totpChallenge sampleUser rfl rfl rfl rfl rfl rfl).2 (by decide) rfl rfl rfl
      rfl rfl rfl rfl rfl rfl rfl

/-- C10 witness: the pre-dispatch guards evaluated on a webauthn factor with
an expired challenge. -/
theorem verify_guards_before_dispatch_witness :
    VerifyFactor cfgA lateWAEnv sampleUser sampleWebauthnFactor regSession "ip" waDB
      = (.error (badRequestError "challenge has expired, verify against another challenge or create a new challenge."),
         destroyChallenge waDB waChallenge)
    ∧ FindChallengeByChallengeID
        (VerifyFactor cfgA lateWAEnv sampleUser sampleWebauthnFactor regSession "ip" waDB).2 20
        = none := by
  exact (verify_guards_before_dispatch cfgA lateWAEnv sampleUser sampleWebauthnFactor
    regSession "ip" waDB ⟨20, "000000"⟩ rfl rfl).2.2.2 waChallenge rfl rfl rfl rfl (by decide) rfl

/-- C6 (amended): both enrollment paths read the factor set fresh and fail
with a capacity error before any mutation, but the caps differ: the TOTP
path enforces the two configured caps, while the webauthn path enforces the
configured enrolled-factor cap together with a hard-coded verified-factor
cap of one.  In both cases a capacity failure leaves the store untouched. -/
theorem enroll_capacity_caps
    (config : Config) (env : EnrollEnv) (user : User) (session : Session) (db : DBState)
    (params : EnrollFactorParams)
    (hbody : env.bodyOk = true) (hp : env.params = some params)
    (hsso : user.isSSOUser = false) :
    (params.factorType = "webauthn" → env.webauthnNewOk = true →
      (isCapacityError (EnrollFactor config env user session db).1 = true
        ↔ (FindFactorsByUser db user).length ≥ config.mfa.maxEnrolledFactors
          ∨ numVerifiedFactors db user ≥ 1)
      ∧ (isCapacityError (EnrollFactor config env user session db).1 = true
          → (EnrollFactor config env user session db).2 = db))
    ∧ (params.factorType = "totp" →
       ∀ issuerVal, (if params.issuer = "" then env.siteURLHost else some params.issuer)
         = some issuerVal →
      (isCapacityError (EnrollFactor config env user session db).1 = true
        ↔ (FindFactorsByUser db user).length ≥ config.mfa.maxEnrolledFactors
          ∨ numVerifiedFactors db user ≥ config.mfa.maxVerifiedFactors)
      ∧ (isCapacityError (EnrollFactor config env user session db).1 = true
          → (EnrollFactor config env user session db).2 = db)) := by
  constructor
  · intro hty hnew
    have heq : EnrollFactor config env user session db
        = EnrollWebAuthnFactor config env user session db := by
      unfold EnrollFactor
      simp only [hbody, hp, hsso, Bool.not_true, Bool.false_eq_true, if_false]
      rw [if_pos hty]
    rw [heq]
    unfold EnrollWebAuthnFactor
    simp only [hnew, hbody, hp, Bool.not_true, Bool.false_eq_true, if_false]
    by_cases h1 : (FindFactorsByUser db user).length ≥ config.mfa.maxEnrolledFactors
    · rw [if_pos h1]
      exact ⟨⟨fun _ => Or.inl h1, fun _ => rfl⟩, fun _ => rfl⟩
    · rw [if_neg h1]
      by_cases h2 : numVerifiedFactors db user ≥ 1
      · rw [if_pos h2]
        exact ⟨⟨fun _ => Or.inr h2, fun _ => rfl⟩, fun _ => rfl⟩
      · rw [if_neg h2]
        rcases hnf : env.newFactorFails <;> rcases htc : env.txCreateFails <;>
          rcases hup : env.updateWebauthnConfigFails <;> rcases hta : env.txAuditFails <;>
          simp [isCapacityError, rawError, internalServerError, hnf, htc, hup, hta, h1, h2]
  · intro hty issuerVal hiss
    unfold EnrollFactor
    simp only [hbody, hp, hsso, Bool.not_true, Bool.false_eq_true, if_false]
    rw [if_neg (by rw [hty]; decide), if_neg (by rw [hty]; decide)]
    simp only [hiss]
    by_cases h1 : (FindFactorsByUser db user).length ≥ config.mfa.maxEnrolledFactors
    · rw [if_pos h1]
      exact ⟨⟨fun _ => Or.inl h1, fun _ => rfl⟩, fun _ => rfl⟩
    · rw [if_neg h1]
      by_cases h2 : numVerifiedFactors db user ≥ config.mfa.maxVerifiedFactors
      · rw [if_pos h2]
        exact ⟨⟨fun _ => Or.inr h2, fun _ => rfl⟩, fun _ => rfl⟩
      · rw [if_neg h2]
        rcases htg : env.totpGenerate with _ | key
        · simp [isCapacityError, internalServerError, h1, h2]
        · rcases hqr : env.qrWriteOk <;> rcases hnf : env.newFactorFails <;>
            rcases htc : env.txCreateFails <;> rcases hta : env.txAuditFails <;>
            simp [isCapacityError, rawError, internalServerError, hqr, hnf, htc, hta, h1, h2]

/-- C7 (amended): ChallengeWebAuthnFactor creates a Challenge row and writes
an audit entry only in the branch taken when the session holds registration
ceremony data; the branch taken when it holds none (the login-ceremony
branch) returns success while creating no Challenge row and writing no
audit entry. -/
theorem challenge_webauthn_registration_branch_accounting :
    (∀ (config : Config) (env : ChallengeEnv) (user : User) (factor : Factor)
       (session : Session) (db : DBState) (sd : WebauthnSessionData)
       (opts : String) (sdata : WebauthnSessionData),
      session.webauthnRegistrationSession = some sd →
      env.decodeConfigOk = true →
      env.beginRegistration = some (opts, sdata) →
      env.txCreateFails = false → env.txAuditFails = false →
      (ChallengeWebAuthnFactor config env user factor session db).1
        = .ok (.ceremonyOptions opts)
      ∧ NewChallenge env.newChallengeID factor env.ipAddress env.now
          ∈ (ChallengeWebAuthnFactor config env user factor session db).2.challenges
      ∧ (⟨.createChallengeAction, user.id, env.remoteAddr, some factor.id, some factor.status,
          none, none⟩ : AuditLogEntry)
          ∈ (ChallengeWebAuthnFactor config env user factor session db).2.auditLog)
    ∧ (∀ (config : Config) (env : ChallengeEnv) (user : User) (factor : Factor)
       (session : Session) (db : DBState) (opts : String) (sdata : WebauthnSessionData),
      session.webauthnRegistrationSession = none →
      env.decodeConfigOk = true →
      env.beginLogin = some (opts, sdata) →
      (ChallengeWebAuthnFactor config env user factor session db).1
        = .ok (.ceremonyOptions opts)
      ∧ (ChallengeWebAuthnFactor config env user factor session db).2.challenges = db.challenges
      ∧ (ChallengeWebAuthnFactor config env user factor session db).2.auditLog = db.auditLog) := by
  constructor
  · intro config env user factor session db sd opts sdata hreg hdec hbr hc ha
    unfold ChallengeWebAuthnFactor
    simp only [hdec, hreg, hbr, hc, ha, Bool.not_true, Bool.false_eq_true, if_false]
    refine ⟨by trivial, ?_, ?_⟩
    · split <;> simp [NewAuditLogEntry, UpdateWebauthnRegistrationSession, NewChallenge]
    · split <;> simp [NewAuditLogEntry, UpdateWebauthnRegistrationSession]
  · intro config env user factor session db opts sdata hreg hdec hbl
    unfold ChallengeWebAuthnFactor
    simp only [hdec, hreg, hbl, Bool.not_true, Bool.false_eq_true, if_false]
    refine ⟨by trivial, ?_, ?_⟩
    · split <;> rfl
    · split <;> rfl

/-- C8: unenrolling a verified factor from a session whose assurance level
is not AAL2 fails with the AAL2-gate error and changes nothing; otherwise,
for the owner, one transaction removes the factor row, writes an audit
entry carrying the session id, and downgrades every session of the
factor's owner to AAL1. -/
theorem unenroll_aal_gate_and_transaction :
    (∀ (env : UnenrollEnv) (user : User) (factor : Factor) (session : Session) (db : DBState),
      factor.status = FactorState.verified → GetAAL session ≠ AAL.aal2 →
      UnenrollFactor env user factor session db
        = (.error (badRequestError "AAL2 required to unenroll verified factor"), db))
    ∧ (∀ (env : UnenrollEnv) (user : User) (factor : Factor) (session : Session) (db : DBState),
      ¬(factor.status = FactorState.verified ∧ GetAAL session ≠ AAL.aal2) →
      factor.userID = user.id →
      env.txDestroyFails = false → env.txAuditFails = false → env.downgradeFails = false →
      (UnenrollFactor env user factor session db).1 = .ok (.unenrolled factor.id)
      ∧ (∀ f2 ∈ (UnenrollFactor env user factor session db).2.factors, f2.id ≠ factor.id)
      ∧ (⟨.unenrollFactorAction, user.id, env.remoteAddr, some factor.id, some factor.status,
          none, some session.id⟩ : AuditLogEntry)
          ∈ (UnenrollFactor env user factor session db).2.auditLog
      ∧ (∀ s2 ∈ (UnenrollFactor env user factor session db).2.sessions,
           s2.userID = factor.userID → s2.aal = AAL.aal1)) := by
  constructor
  · intro env user factor session db hst haal
    unfold UnenrollFactor
    rw [if_pos ⟨hst, haal⟩]
  · intro env user factor session db hgate hown hd ha hdown
    unfold UnenrollFactor
    rw [if_neg hgate, if_neg (by simp [hown])]
    simp only [hd, ha, hdown, Bool.false_eq_true, if_false]
    refine ⟨by trivial, ?_, ?_, ?_⟩
    · intro f2 hf2
      simp only [DowngradeSessionsToAAL1, NewAuditLogEntry, List.mem_filter,
        decide_eq_true_eq] at hf2
      exact hf2.2
    · simp [DowngradeSessionsToAAL1, NewAuditLogEntry]
    · intro s2 hs2 hsu
      simp only [DowngradeSessionsToAAL1, NewAuditLogEntry, List.mem_map] at hs2
      obtain ⟨s0, hs0, hmap⟩ := hs2
      by_cases hu0 : s0.userID = factor.userID
      · rw [if_pos hu0] at hmap
        rw [← hmap]
      · rw [if_neg hu0] at hmap
        rw [← hmap] at hsu
        exact absurd hsu hu0

/-- C9 (amended): a webauthn enrollment that passes the caps creates the
factor row with empty secret material and stores the relying-party
configuration on the session — but that configuration is the fixed
hard-coded value, and the whole call is independent of every service-level
configuration field outside the MFA caps. -/
theorem enroll_webauthn_rp_and_secret
    (config : Config) (env : EnrollEnv) (user : User) (session : Session) (db : DBState)
    (params : EnrollFactorParams)
    (hbody : env.bodyOk = true) (hp : env.params = some params)
    (hsso : user.isSSOUser = false) (hty : params.factorType = "webauthn")
    (hnew : env.webauthnNewOk = true)
    (hcap1 : ¬ (FindFactorsByUser db user).length ≥ config.mfa.maxEnrolledFactors)
    (hcap2 : ¬ numVerifiedFactors db user ≥ 1)
    (hnf : env.newFactorFails = false) (htc : env.txCreateFails = false)
    (hup : env.updateWebauthnConfigFails = false) (hta : env.txAuditFails = false) :
    (EnrollFactor config env user session db).1
      = .ok (.factorJSON (NewFactor env.newFactorID user params.friendlyName params.factorType
          FactorState.unverified ""))
    ∧ (NewFactor env.newFactorID user params.friendlyName params.factorType
        FactorState.unverified "").secret = ""
    ∧ NewFactor env.newFactorID user params.friendlyName params.factorType
        FactorState.unverified ""
        ∈ (EnrollFactor config env user session db).2.factors
    ∧ (∀ s2 ∈ (EnrollFactor config env user session db).2.sessions,
         s2.id = session.id → s2.webauthnConfiguration = some hardcodedRPConfig)
    ∧ (∀ config2 : Config, config2.mfa = config.mfa →
         EnrollFactor config2 env user session db = EnrollFactor config env user session db) := by
  have heq : EnrollFactor config env user session db
      = EnrollWebAuthnFactor config env user session db := by
    unfold EnrollFactor
    simp only [hbody, hp, hsso, Bool.not_true, Bool.false_eq_true, if_false]
    rw [if_pos hty]
  have hrun : EnrollWebAuthnFactor config env user session db
      = (.ok (.factorJSON (NewFactor env.newFactorID user params.friendlyName params.factorType
            FactorState.unverified "")),
         NewAuditLogEntry
           (UpdateWebauthnConfiguration
             { db with factors := db.factors ++ [NewFactor env.newFactorID user params.friendlyName
                 params.factorType FactorState.unverified ""] }
             session.id hardcodedRPConfig)
           ⟨.enrollFactorAction, user.id, env.remoteAddr,
            some (NewFactor env.newFactorID user params.friendlyName params.factorType
              FactorState.unverified "").id, none, none, none⟩) := by
    unfold EnrollWebAuthnFactor
    simp only [hnew, hbody, hp, Bool.not_true, Bool.false_eq_true, if_false]
    rw [if_neg hcap1, if_neg hcap2]
    simp only [hnf, htc, hup, hta, Bool.false_eq_true, if_false]
  refine ⟨?_, rfl, ?_, ?_, ?_⟩
  · rw [heq, hrun]
  · rw [heq, hrun]
    simp [NewAuditLogEntry, UpdateWebauthnConfiguration]
  · rw [heq, hrun]
    intro s2 hs2 hsid
    simp only [NewAuditLogEntry, UpdateWebauthnConfiguration, List.mem_map] at hs2
    obtain ⟨s0, hs0, hmap⟩ := hs2
    by_cases h0 : s0.id = session.id
    · rw [if_pos h0] at hmap
      rw [← hmap]
    · rw [if_neg h0] at hmap
      rw [← hmap] at hsid
      exact absurd hsid h0
  · intro config2 hm
    unfold EnrollFactor EnrollWebAuthnFactor
    rw [hm]

/-- Enrollment environment for a TOTP enrollment request. -/
def enrollTOTPEnv : EnrollEnv :=
  ⟨"addr", true, some ⟨"phone", "totp", ""⟩, some "example.com",
   some ⟨"GENSECRET", "otpauth://totp/example"⟩, true, true, 41, false, false, false, false⟩

/-- C6 witness: the capacity characterisations evaluated on both paths for a
user with one verified factor. -/
theorem enroll_capacity_caps_witness :
    (isCapacityError (EnrollFactor cfgA enrollWAEnv sampleUser plainSession oneVerifiedDB).1 = true
      ↔ (FindFactorsByUser oneVerifiedDB sampleUser).length ≥ cfgA.mfa.maxEnrolledFactors
        ∨ numVerifiedFactors oneVerifiedDB sampleUser ≥ 1)
    ∧ (isCapacityError (EnrollFactor cfgA enrollTOTPEnv sampleUser plainSession oneVerifiedDB).1 = true
      ↔ (FindFactorsByUser oneVerifiedDB sampleUser).length ≥ cfgA.mfa.maxEnrolledFactors
        ∨ numVerifiedFactors oneVerifiedDB sampleUser ≥ cfgA.mfa.maxVerifiedFactors) := by
  constructor
  · exact ((enroll_capacity_caps cfgA enrollWAEnv sampleUser plainSession oneVerifiedDB
      ⟨"security key", "webauthn", ""⟩ rfl rfl rfl).1 rfl rfl).1
  · exact ((enroll_capacity_caps cfgA enrollTOTPEnv sampleUser plainSession oneVerifiedDB
      ⟨"phone", "totp", ""⟩ rfl rfl rfl).2 rfl "example.com" rfl).1

/-- Database for a challenge request on a session holding registration data. -/
def waChallengeRegDB : DBState := ⟨[sampleUser], [sampleWebauthnFactor], [], [regSession], []⟩

/-- C7 witness: the registration-branch accounting evaluated concretely. -/
theorem challenge_webauthn_registration_branch_accounting_witness :
    (ChallengeWebAuthnFactor cfgA waChallengeEnv sampleUser sampleWebauthnFactor regSession
        waChallengeRegDB).1 = .ok (.ceremonyOptions "registrationOptions")
    ∧ NewChallenge 20 sampleWebauthnFactor "ip" 100
        ∈ (ChallengeWebAuthnFactor cfgA waChallengeEnv sampleUser sampleWebauthnFactor regSession
            waChallengeRegDB).2.challenges
    ∧ (⟨.createChallengeAction, 1, "addr", some 12, some FactorState.unverified, none, none⟩ : AuditLogEntry)
        ∈ (ChallengeWebAuthnFactor cfgA waChallengeEnv sampleUser sampleWebauthnFactor regSession
            waChallengeRegDB).2.auditLog := by
  exact challenge_webauthn_registration_branch_accounting.1 cfgA waChallengeEnv sampleUser
    sampleWebauthnFactor regSession waChallengeRegDB ⟨"storedCeremony"⟩ "registrationOptions"
    ⟨"registrationCeremony"⟩ rfl rfl rfl rfl rfl

/-- A verified factor owned by the sample user. -/
def verifiedFactor : Factor := ⟨11, 1, "phone", "totp", .verified, "VERIFIEDSECRET"⟩

/-- A session of the sample user already at AAL2. -/
def aal2Session : Session := ⟨33, 1, .aal2, none, none, none⟩

/-- Database for the unenrollment scenario. -/
def unenrollDB : DBState := ⟨[sampleUser], [verifiedFactor], [], [aal2Session, plainSession], []⟩

/-- Unenrollment environment with no injected failure. -/
def unenrollEnv : UnenrollEnv := ⟨"addr", false, false, false⟩

/-- C8 witness: the AAL gate and the removal transaction evaluated
concretely from an AAL1 and an AAL2 session. -/
theorem unenroll_aal_gate_and_transaction_witness :
    UnenrollFactor unenrollEnv sampleUser verifiedFactor plainSession unenrollDB
      = (.error (badRequestError "AAL2 required to unenroll verified factor"), unenrollDB)
    ∧ (UnenrollFactor unenrollEnv sampleUser verifiedFactor aal2Session unenrollDB).1
        = .ok (.unenrolled 11)
    ∧ (∀ s2 ∈ (UnenrollFactor unenrollEnv sampleUser verifiedFactor aal2Session unenrollDB).2.sessions,
         s2.userID = 1 → s2.aal = AAL.aal1) := by
  refine ⟨?_, ?_, ?_⟩
  · exact unenroll_aal_gate_and_transaction.1 unenrollEnv sampleUser verifiedFactor plainSession
      unenrollDB rfl (by decide)
  · exact (unenroll_aal_gate_and_transaction.2 unenrollEnv sampleUser verifiedFactor aal2Session
      unenrollDB (by decide) rfl rfl rfl rfl).1
  · exact (unenroll_aal_gate_and_transaction.2 unenrollEnv sampleUser verifiedFactor aal2Session
      unenrollDB (by decide) rfl rfl rfl rfl).2.2.2

/-- C9 witness: the webauthn enrollment theorem evaluated concretely. -/
theorem enroll_webauthn_rp_and_secret_witness :
    (EnrollFactor cfgA enrollWAEnv sampleUser plainSession emptyFactorDB).1
      = .ok (.factorJSON (NewFactor 40 sampleUser "security key" "webauthn" FactorState.unverified ""))
    ∧ (∀ s2 ∈ (EnrollFactor cfgA enrollWAEnv sampleUser plainSession emptyFactorDB).2.sessions,
         s2.id = 32 → s2.webauthnConfiguration = some hardcodedRPConfig)
    ∧ EnrollFactor cfgB enrollWAEnv sampleUser plainSession emptyFactorDB
        = EnrollFactor cfgA enrollWAEnv sampleUser plainSession emptyFactorDB := by
  have h := enroll_webauthn_rp_and_secret cfgA enrollWAEnv sampleUser plainSession emptyFactorDB
    ⟨"security key", "webauthn", ""⟩ rfl rfl rfl rfl rfl (by decide) (by decide) rfl rfl rfl rfl
  exact ⟨h.1, h.2.2.2.1, h.2.2.2.2 cfgB rfl⟩

end Gotrue
